import Mathlib

/-!
# Verification of the video segment-splitting engine

Shallow embedding of the core logic of `app.py` (class `VideoSplitterApp`
and the segment-configuration / processing loops of `main`): time-string
parsing, aspect-ratio parsing, crop-geometry computation, per-segment
validation and planning, per-segment extraction outcomes, and archive
membership.  Numeric values use `ℚ` in place of Python floats and `ℤ` in
place of Python ints; Python's `int(x)` truncation toward zero, floor
division `//` and nonnegative `%` are modelled explicitly.  Python string
operations (`strip`, `split`, `lower`, `endswith`, membership) are
modelled by structurally recursive functions on `List Char` so that all
definitions evaluate by kernel reduction.
-/

set_option autoImplicit false

deriving instance DecidableEq for Except

namespace VideoSplitter

/-- Python exceptions that the modelled code can raise. -/
inductive PyExc where
  | valueError
  | typeError
  | zeroDivisionError
  deriving DecidableEq, Repr

/-! ## Python string primitives on `List Char` -/

/-- Model of Python `str.strip()`: drop whitespace from both ends. -/
def pyStrip (cs : List Char) : List Char :=
  ((cs.dropWhile Char.isWhitespace).reverse.dropWhile Char.isWhitespace).reverse

/-- Model of Python `str.split(sep)` for a single-character separator:
always returns at least one (possibly empty) part. -/
def pySplit (sep : Char) : List Char → List (List Char)
  | [] => [[]]
  | c :: cs =>
      if c = sep then [] :: pySplit sep cs
      else
        match pySplit sep cs with
        | [] => [[c]]
        | p :: ps => (c :: p) :: ps

/-- Model of Python `str.lower()` (ASCII case folding). -/
def pyLower (cs : List Char) : List Char := cs.map Char.toLower

/-! ## Numeric string parsing (model of Python `int()` / `float()`)

The model covers sign + digits (+ optional single decimal point for
`float()`), with surrounding whitespace stripped, which is the fragment of
Python numeric-literal parsing exercised by the application; exponent
notation, `inf`/`nan` and underscores are outside the model. -/

/-- Numeric value of a list of decimal digit characters (fold with accumulator). -/
def digitsVal : List Char → ℕ → ℕ
  | [], acc => acc
  | c :: cs, acc => digitsVal cs (acc * 10 + (c.toNat - '0'.toNat))

/-- All characters are decimal digits. -/
def allDigits (cs : List Char) : Bool := cs.all Char.isDigit

/-- Model of Python `int(s)`: optional sign followed by one or more digits,
whitespace stripped. Returns `none` where Python raises `ValueError`. -/
def pyParseInt (s : List Char) : Option ℤ :=
  match pyStrip s with
  | '-' :: rest =>
      if rest ≠ [] ∧ allDigits rest then some (-(digitsVal rest 0 : ℤ)) else none
  | '+' :: rest =>
      if rest ≠ [] ∧ allDigits rest then some (digitsVal rest 0 : ℤ) else none
  | cs =>
      if cs ≠ [] ∧ allDigits cs then some (digitsVal cs 0 : ℤ) else none

/-- Unsigned part of Python `float(s)`: digits, optionally one decimal point,
at least one digit overall. -/
def pyParseFloatCore (cs : List Char) : Option ℚ :=
  let intPart := cs.takeWhile (· ≠ '.')
  match cs.dropWhile (· ≠ '.') with
  | [] =>
      if intPart ≠ [] ∧ allDigits intPart then some (digitsVal intPart 0 : ℚ) else none
  | _ :: frac =>
      if allDigits intPart ∧ allDigits frac ∧ (intPart ≠ [] ∨ frac ≠ []) then
        some ((digitsVal intPart 0 : ℚ) + (digitsVal frac 0 : ℚ) / (10 ^ frac.length : ℚ))
      else none

/-- Model of Python `float(s)`: optional sign then `pyParseFloatCore`,
whitespace stripped. Returns `none` where Python raises `ValueError`. -/
def pyParseFloat (s : List Char) : Option ℚ :=
  match pyStrip s with
  | '-' :: rest => (pyParseFloatCore rest).map (fun q => -q)
  | '+' :: rest => pyParseFloatCore rest
  | cs => pyParseFloatCore cs

/-! ## `VideoSplitterApp.parse_time_input` (app.py lines 121–134)

The Python function strips the input; if it contains a colon it splits on
colons and handles exactly the 2- and 3-component cases, **falling off the
end of the function (returning `None`) for any other component count**;
otherwise it returns `float(text)`.  `int()`/`float()` failures raise
`ValueError`.  The result type `Except PyExc (Option ℚ)` records the
implicit-`None` return as `.ok none`. -/

def parse_time_input (time_str : String) : Except PyExc (Option ℚ) :=
  let t := pyStrip time_str.data
  if t.contains ':' then
    match pySplit ':' t with
    | [minutes, seconds] =>
        match pyParseInt minutes with
        | none => .error .valueError
        | some m =>
            match pyParseFloat seconds with
            | none => .error .valueError
            | some s => .ok (some ((m : ℚ) * 60 + s))
    | [hours, minutes, seconds] =>
        match pyParseInt hours with
        | none => .error .valueError
        | some h =>
            match pyParseInt minutes with
            | none => .error .valueError
            | some m =>
                match pyParseFloat seconds with
                | none => .error .valueError
                | some s => .ok (some ((h : ℚ) * 3600 + (m : ℚ) * 60 + s))
    | _ => .ok none
  else
    match pyParseFloat t with
    | none => .error .valueError
    | some v => .ok (some v)

/-! ## `VideoSplitterApp.parse_aspect_ratio` (app.py lines 142–151)

`"original"` (case-insensitive) maps to `none`; a string without a colon
raises `ValueError("Invalid format")`; otherwise the string is split on
colons and unpacked into exactly two components (a different component
count raises `ValueError` from tuple unpacking), each converted with
`float()`.  **No positivity check is performed on the components.** -/

def parse_aspect_ratio (ratio_str : String) : Except PyExc (Option (ℚ × ℚ)) :=
  if pyLower ratio_str.data = "original".data then .ok none
  else if ¬ ratio_str.data.contains ':' then .error .valueError
  else
    match pySplit ':' ratio_str.data with
    | [width, height] =>
        match pyParseFloat width with
        | none => .error .valueError
        | some w =>
            match pyParseFloat height with
            | none => .error .valueError
            | some h => .ok (some (w, h))
    | _ => .error .valueError

/-! ## `VideoSplitterApp.calculate_crop_dimensions` (app.py lines 153–185)

Python float arithmetic is modelled over `ℚ`.  `int(x)` truncates toward
zero (`pyTrunc`); on the nonnegative values arising here this is the
floor.  Integer `//` is Python floor division, which for the positive
divisor `2` coincides with Lean's `Int` division (Euclidean), and Python
`%` with positive modulus coincides with Lean's `Int` `%`.  Divisions are
guarded in evaluation order exactly as Python raises `ZeroDivisionError`:
`target_width / target_height` first, then `original_width /
original_height`, and — only in the `target_aspect > original_aspect`
branch — `original_width / target_aspect`. -/

/-- Structure `CropGeometry`: the dictionary returned by `calculate_crop_dimensions`. -/
structure CropGeometry where
  width : ℤ
  height : ℤ
  x : ℤ
  y : ℤ
  deriving DecidableEq, Repr

/-- Model of Python `int(x)` on a real (rational) value: truncation toward zero. -/
def pyTrunc (q : ℚ) : ℤ := if 0 ≤ q then ⌊q⌋ else ⌈q⌉

def calculate_crop_dimensions (original_width original_height : ℤ)
    (target_ratio : Option (ℚ × ℚ)) : Except PyExc (Option CropGeometry) :=
  match target_ratio with
  | none => .ok none
  | some (target_width, target_height) =>
      if target_height = 0 then .error .zeroDivisionError
      else
        let target_aspect := target_width / target_height
        if original_height = 0 then .error .zeroDivisionError
        else
          let original_aspect := (original_width : ℚ) / (original_height : ℚ)
          if |target_aspect - original_aspect| < 1 / 100 then .ok none
          else if target_aspect > original_aspect then
            if target_aspect = 0 then .error .zeroDivisionError
            else
              let new_height := pyTrunc ((original_width : ℚ) / target_aspect)
              let new_width := original_width
              let crop_x : ℤ := 0
              let crop_y := (original_height - new_height) / 2
              .ok (some ⟨new_width - new_width % 2, new_height - new_height % 2,
                         crop_x - crop_x % 2, crop_y - crop_y % 2⟩)
          else
            let new_width := pyTrunc ((original_height : ℚ) * target_aspect)
            let new_height := original_height
            let crop_x := (original_width - new_width) / 2
            let crop_y : ℤ := 0
            .ok (some ⟨new_width - new_width % 2, new_height - new_height % 2,
                       crop_x - crop_x % 2, crop_y - crop_y % 2⟩)


/-! ## Segment validation and planning (app.py lines 311–374, inside `main`)

For each configured segment the boundary loop holds a raw request
(start text, end text, ratio text).  If either time text is empty
(Python falsiness of `""`) the segment is **silently skipped** — no plan
and no error message.  Otherwise a `try` block parses both times, rejects
`start ≥ end` and `start ≥ duration` with distinct error messages,
clamps `end` to the source duration with a warning, parses the ratio and
appends the plan; `except ValueError` converts any `ValueError` raised
inside the block into the "Invalid time format" error message.  A
`TypeError` (comparison of `None`, the implicit return of
`parse_time_input` on a 4-component time) is **not** caught and
propagates out of the whole loop. -/

/-- Raw per-segment user input (start text, end text, ratio text). -/
structure SegmentRequest where
  start : String
  stop : String
  ratio : String
  deriving DecidableEq, Repr

/-- The distinct `st.error` messages the validation loop can record for a
segment. -/
inductive PlanError where
  /-- "Start time must be less than end time for segment i" -/
  | startAfterEnd
  /-- "Start time exceeds video duration for segment i" -/
  | startBeyondSource
  /-- "Invalid time format for segment i: e" (any `ValueError` caught by the
  `except` clause: malformed time or ratio text) -/
  | invalidFormat
  deriving DecidableEq, Repr

/-- What one iteration of the validation loop does with one request. -/
inductive StepResult where
  /-- empty start or end text: no plan and no error message -/
  | skipped
  /-- an `st.error` message is shown; no plan appended -/
  | errorEntry (e : PlanError)
  /-- a plan `{start, end, duration, aspect_ratio}` is appended -/
  | planned (start stop duration : ℚ) (aspect_ratio : Option (ℚ × ℚ))
  /-- an exception escapes the loop iteration uncaught -/
  | raised (e : PyExc)
  deriving DecidableEq, Repr

/-- One iteration of the segment-configuration loop (app.py lines 343–374)
for a request, against a source of duration `dur`. -/
def plannerStep (req : SegmentRequest) (dur : ℚ) : StepResult :=
  if req.start = "" ∨ req.stop = "" then .skipped
  else
    match parse_time_input req.start with
    | .error _ => .errorEntry .invalidFormat
    | .ok startOpt =>
        match parse_time_input req.stop with
        | .error _ => .errorEntry .invalidFormat
        | .ok stopOpt =>
            match startOpt, stopOpt with
            | some start_seconds, some end_seconds =>
                if start_seconds ≥ end_seconds then .errorEntry .startAfterEnd
                else if start_seconds ≥ dur then .errorEntry .startBeyondSource
                else
                  let end_clamped := if end_seconds > dur then dur else end_seconds
                  match parse_aspect_ratio req.ratio with
                  | .error _ => .errorEntry .invalidFormat
                  | .ok parsed_ratio =>
                      .planned start_seconds end_clamped (end_clamped - start_seconds)
                        parsed_ratio
            | _, _ => .raised .typeError

/-- An outcome recorded by the loop: a validated plan or an error entry. -/
inductive Outcome where
  | plan (start stop duration : ℚ) (aspect_ratio : Option (ℚ × ℚ))
  | err (e : PlanError)
  deriving DecidableEq, Repr

/-- The whole segment-configuration loop over an ordered request list:
collects the outcomes in order, emits nothing for a skipped request, and
aborts with the exception if an iteration raises. -/
def plannerRun (reqs : List SegmentRequest) (dur : ℚ) : Except PyExc (List Outcome) :=
  match reqs with
  | [] => .ok []
  | r :: rest =>
      match plannerStep r dur with
      | .raised e => .error e
      | .skipped => plannerRun rest dur
      | .errorEntry e => (plannerRun rest dur).map (Outcome.err e :: ·)
      | .planned s e d ρ => (plannerRun rest dur).map (Outcome.plan s e d ρ :: ·)


/-! ## `VideoSplitterApp.process_segment` (app.py lines 187–227)

The external `ffmpeg` invocation is modelled by a `ToolResult` oracle:
whether the call timed out (`subprocess.TimeoutExpired`, caught by the
blanket `except Exception`), its exit code, whether the output file
exists afterwards, and its stderr text.  The output path is
`video_part_{index:02d}.mp4` built from the 1-based segment index. -/

/-- Python `f"{n:02d}"` for a nonnegative integer: zero-pad to (at least)
two digits. -/
def pad2 (n : ℕ) : String := if n < 10 then "0" ++ toString n else toString n

/-- The deterministic output filename for segment `index` (1-based). -/
def outputName (index : ℕ) : String := "video_part_" ++ pad2 index ++ ".mp4"

/-- Observable behaviour of one external transcode invocation. -/
structure ToolResult where
  timedOut : Bool
  returncode : ℤ
  outputExists : Bool
  toolStderr : String
  deriving DecidableEq, Repr

/-- Crop resolution at the start of `process_segment`: when an aspect
ratio is requested, the probe (`get_video_info`) must supply dimensions,
and `calculate_crop_dimensions` runs on them (an exception there is
caught by the blanket `except Exception` clause). -/
def resolveCrop (aspect : Option (ℚ × ℚ)) (probe : Option (ℤ × ℤ)) :
    Except String (Option CropGeometry) :=
  match aspect with
  | none => .ok none
  | some r =>
      match probe with
      | none => .error "Could not get video dimensions"
      | some (w, h) =>
          match calculate_crop_dimensions w h (some r) with
          | .error _ => .error "Exception: division by zero"
          | .ok c => .ok c

/-- The transcode call and result classification of `process_segment`
(lines 219–227): timeout gives the caught-exception message, exit code 0
together with an existing output file gives success with the output path,
anything else gives the stderr-carrying failure message. -/
def runTranscode (index : ℕ) (tool : ToolResult) : Bool × String :=
  if tool.timedOut then (false, "Exception: timeout")
  else if tool.returncode = 0 ∧ tool.outputExists then (true, outputName index)
  else (false, "FFmpeg error: " ++ tool.toolStderr)

/-- Model of `process_segment`: crop resolution, then the transcode call. -/
def process_segment (index : ℕ) (aspect : Option (ℚ × ℚ)) (probe : Option (ℤ × ℤ))
    (tool : ToolResult) : Bool × String :=
  match resolveCrop aspect probe with
  | .error msg => (false, msg)
  | .ok _ => runTranscode index tool

/-- One planned job for the processing loop: the plan's crop inputs and
the external tool's behaviour on it. -/
structure Job where
  aspect : Option (ℚ × ℚ)
  probe : Option (ℤ × ℤ)
  tool : ToolResult
  deriving DecidableEq, Repr

/-- The processing loop of `main` (lines 386–398): segment `i` (1-based)
is processed with `process_segment`, and the loop always continues to the
next segment whatever the outcome. -/
def processAll (index : ℕ) : List Job → List (Bool × String)
  | [] => []
  | j :: rest => process_segment index j.aspect j.probe j.tool :: processAll (index + 1) rest

/-! ## `VideoSplitterApp.create_zip_file` (app.py lines 229–240) and the
session output directory

`create_zip_file` takes **no argument**: it walks `self.output_dir` and
packs every `.mp4` file found there under its base filename.  The
directory belongs to the `VideoSplitterApp` instance, which lives in
`st.session_state` across processing runs; files are only ever added (or
overwritten in place), never removed.  The directory listing is modelled
as a list of filenames without duplicates. -/

/-- Member names of the archive built by `create_zip_file` from a
directory listing: exactly the `.mp4` entries. -/
def create_zip_file (outputDirListing : List String) : List String :=
  outputDirListing.filter (fun f => ".mp4".data.isSuffixOf f.data)

/-- Output files written by one processing run, given each segment's
success flag, 1-based from `index` (`process_segment` writes
`video_part_{i:02d}.mp4` for segment `i`). -/
def runFiles (index : ℕ) : List Bool → List String
  | [] => []
  | ok :: rest =>
      if ok then outputName index :: runFiles (index + 1) rest
      else runFiles (index + 1) rest

/-- Writing a file into the directory: overwriting keeps the single
listing entry, a new name is appended. -/
def addFile (dir : List String) (f : String) : List String :=
  if f ∈ dir then dir else dir ++ [f]

/-- Directory contents after one processing run on top of `dir`. -/
def writeRun (dir : List String) (results : List Bool) : List String :=
  (runFiles 1 results).foldl addFile dir

/-- Directory contents after a session of successive processing runs
(each list of per-segment success flags), starting from the fresh
per-session directory. -/
def sessionDir (runs : List (List Bool)) : List String :=
  runs.foldl writeRun []



/-! ## Claim theorems -/

/-- C2 (code bug): the spec requires `parse` to fail with a `FormatError`
on every string that is not a plain number, `MM:SS` or `HH:MM:SS`, in
particular on `"1:2:3:4"`, `"abc"` and `""`.  The code does fail with
`ValueError` on `"abc"` and `""`, but on `"1:2:3:4"` (four colon-separated
components) `parse_time_input` falls off the end of the `if`/`elif` chain
and returns the implicit `None` instead of raising. -/
theorem C2_parse_time_input_four_components_returns_none :
    parse_time_input "1:2:3:4" = .ok none ∧
    parse_time_input "abc" = .error .valueError ∧
    parse_time_input "" = .error .valueError := by
  refine ⟨by decide, by decide, by decide⟩

/-- C5 (code bug): the claim says no user input may escape the
segment-configuration path as an unhandled exception.  With start text
`"1:2:3:4"`, `parse_time_input` returns `None`, the comparison
`start_seconds >= end_seconds` raises `TypeError`, the `except ValueError`
clause does not catch it, and the exception aborts the whole validation
loop (dropping all later requests). -/
theorem C5_four_component_time_raises_uncaught_typeError :
    plannerStep ⟨"1:2:3:4", "30", "original"⟩ 100 = .raised .typeError ∧
    plannerRun [⟨"1:2:3:4", "30", "original"⟩, ⟨"10", "20", "original"⟩] 100 =
      .error .typeError := by
  refine ⟨by decide, by decide⟩

/-- C4 counterexample: the claim requires `parseSpec` to fail on `"0:9"`
and `"-16:9"` (components not strictly positive); `parse_aspect_ratio`
performs no positivity check and returns the pairs `(0, 9)` and
`(-16, 9)`. -/
theorem C4_counterexample :
    parse_aspect_ratio "0:9" = .ok (some (0, 9)) ∧
    parse_aspect_ratio "-16:9" = .ok (some (-16, 9)) ∧
    ¬ (0 : ℚ) > 0 := by
  refine ⟨by decide, by decide, by norm_num⟩

/-- C4 amended: the case-insensitive token "original" maps to the
`Original` sentinel (`none`); any other input without a colon fails with
`ValueError`; a colon-separated input must split into exactly two numeric
components, which are returned as a pair **without any positivity
check** (so `"16:9" ↦ (16, 9)`, `"0:9" ↦ (0, 9)`, `"-16:9" ↦ (-16, 9)`,
and `"16-9"` fails). -/
theorem C4_parse_aspect_ratio_behaviour :
    (∀ s : String, pyLower s.data = "original".data → parse_aspect_ratio s = .ok none) ∧
    (∀ s : String, pyLower s.data ≠ "original".data → s.data.contains ':' = false →
        parse_aspect_ratio s = .error .valueError) ∧
    parse_aspect_ratio "16:9" = .ok (some (16, 9)) ∧
    parse_aspect_ratio "16-9" = .error .valueError ∧
    parse_aspect_ratio "1:2:3" = .error .valueError ∧
    parse_aspect_ratio "0:9" = .ok (some (0, 9)) ∧
    parse_aspect_ratio "-16:9" = .ok (some (-16, 9)) := by
  refine ⟨?_, ?_, by decide, by decide, by decide, by decide, by decide⟩
  · intro s h
    simp [parse_aspect_ratio, h]
  · intro s h1 h2
    have h3 : ¬ (':' ∈ s.data) := by simpa using h2
    simp [parse_aspect_ratio, h1, h3]

/-- C4 witness: the amended theorem applied to `"Original"`. -/
theorem C4_witness : parse_aspect_ratio "Original" = .ok none :=
  C4_parse_aspect_ratio_behaviour.1 "Original" (by decide)

/-- C1 counterexample: a request whose start text is empty is silently
skipped by the guard `if start_time and end_time:` — the loop emits no
outcome at all for it (neither a plan nor an error entry), so for the
one-request list the outcome count is `0`, not `1`. -/
theorem C1_counterexample :
    plannerRun [⟨"", "30", "original"⟩] 100 = .ok [] ∧
    ([] : List Outcome).length ≠ [SegmentRequest.mk "" "30" "original"].length := by
  refine ⟨by decide, by decide⟩

/-- A request with non-empty time texts, neither of which makes
`parse_time_input` return the implicit `None`, always yields an explicit
error entry or a plan — never a silent skip and never an uncaught
exception. -/
theorem plannerStep_entry_or_plan (r : SegmentRequest) (dur : ℚ)
    (h1 : r.start ≠ "") (h2 : r.stop ≠ "")
    (h3 : parse_time_input r.start ≠ .ok none)
    (h4 : parse_time_input r.stop ≠ .ok none) :
    (∃ e, plannerStep r dur = .errorEntry e) ∨
    (∃ s e d ρ, plannerStep r dur = .planned s e d ρ) := by
  unfold plannerStep
  rw [if_neg (by simp [h1, h2])]
  rcases hs : parse_time_input r.start with e | so
  · exact Or.inl ⟨_, rfl⟩
  rcases he : parse_time_input r.stop with e' | eo
  · exact Or.inl ⟨_, rfl⟩
  rcases so with _ | sv
  · exact absurd hs h3
  rcases eo with _ | ev
  · exact absurd he h4
  dsimp only
  by_cases hge : sv ≥ ev
  · rw [if_pos hge]; exact Or.inl ⟨_, rfl⟩
  rw [if_neg hge]
  by_cases hbd : sv ≥ dur
  · rw [if_pos hbd]; exact Or.inl ⟨_, rfl⟩
  rw [if_neg hbd]
  rcases hr : parse_aspect_ratio r.ratio with e'' | ρ
  · exact Or.inl ⟨_, rfl⟩
  · exact Or.inr ⟨_, _, _, _, rfl⟩

/-- C1 amended: the validation loop emits exactly one outcome per request
(in input order, an explicit error entry for each rejected request) for
every request list in which every request has non-empty start and end
texts and neither time text makes `parse_time_input` return the implicit
`None` (the four-component case).  Outside that domain the claim fails:
empty time texts are silently skipped and the implicit-`None` case aborts
the loop with a `TypeError`. -/
theorem C1_planner_one_outcome_per_request :
    ∀ (reqs : List SegmentRequest) (dur : ℚ),
      (∀ r ∈ reqs, r.start ≠ "" ∧ r.stop ≠ "" ∧
          parse_time_input r.start ≠ .ok none ∧ parse_time_input r.stop ≠ .ok none) →
      ∃ outs : List Outcome, plannerRun reqs dur = .ok outs ∧ outs.length = reqs.length := by
  intro reqs dur
  induction reqs with
  | nil => exact fun _ => ⟨[], rfl, rfl⟩
  | cons r rest ih =>
      intro h
      obtain ⟨outs, houts, hlen⟩ := ih fun x hx => h x (List.mem_cons_of_mem _ hx)
      obtain ⟨hr1, hr2, hr3, hr4⟩ := h r (List.mem_cons_self r rest)
      rcases plannerStep_entry_or_plan r dur hr1 hr2 hr3 hr4 with ⟨e, he⟩ | ⟨s, e, d, ρ, he⟩
      · exact ⟨Outcome.err e :: outs, by simp [plannerRun, he, houts, Except.map],
          by simp [hlen]⟩
      · exact ⟨Outcome.plan s e d ρ :: outs, by simp [plannerRun, he, houts, Except.map],
          by simp [hlen]⟩

/-- C1 witness: a concrete mixed list (one valid request, one rejected
with start after end) of length two yields exactly two outcomes. -/
theorem C1_witness :
    ∃ outs : List Outcome,
      plannerRun [⟨"10", "20", "16:9"⟩, ⟨"60", "30", "original"⟩] 100 = .ok outs ∧
      outs.length = 2 :=
  C1_planner_one_outcome_per_request
    [⟨"10", "20", "16:9"⟩, ⟨"60", "30", "original"⟩] 100 (by decide)

/-- A time text that parses to a value is in particular non-empty. -/
theorem ne_empty_of_parse_some {t : String} {v : ℚ}
    (h : parse_time_input t = .ok (some v)) : t ≠ "" := by
  intro hc
  rw [hc, show parse_time_input "" = .error .valueError from by decide] at h
  simp at h

/-- C8: validation of one request against source duration `dur`:
`start ≥ end` is rejected first (`startAfterEnd`), then `start ≥ dur`
(`startBeyondSource`); an accepted request with `end > dur` is planned
with end clamped to `dur` and duration `dur - start`.  Concretely for
`dur = 100`: start 110 / end 150 is rejected beyond-source, start 60 /
end 30 is rejected start-after-end, and start 50 / end 150 is planned as
`[50, 100]` with duration `50`. -/
theorem C8_planner_validation :
    (∀ (req : SegmentRequest) (dur s e : ℚ),
        parse_time_input req.start = .ok (some s) →
        parse_time_input req.stop = .ok (some e) →
        s ≥ e → plannerStep req dur = .errorEntry .startAfterEnd) ∧
    (∀ (req : SegmentRequest) (dur s e : ℚ),
        parse_time_input req.start = .ok (some s) →
        parse_time_input req.stop = .ok (some e) →
        s < e → s ≥ dur → plannerStep req dur = .errorEntry .startBeyondSource) ∧
    (∀ (req : SegmentRequest) (dur s e : ℚ) (ρ : Option (ℚ × ℚ)),
        parse_time_input req.start = .ok (some s) →
        parse_time_input req.stop = .ok (some e) →
        parse_aspect_ratio req.ratio = .ok ρ →
        s < e → s < dur → e > dur →
        plannerStep req dur = .planned s dur (dur - s) ρ) ∧
    plannerStep ⟨"110", "150", "original"⟩ 100 = .errorEntry .startBeyondSource ∧
    plannerStep ⟨"60", "30", "original"⟩ 100 = .errorEntry .startAfterEnd ∧
    plannerStep ⟨"50", "150", "original"⟩ 100 = .planned 50 100 50 none := by
  refine ⟨?_, ?_, ?_, by decide, by decide, ?_⟩
  · intro req dur s e hs he hge
    unfold plannerStep
    rw [if_neg (by simp [ne_empty_of_parse_some hs, ne_empty_of_parse_some he])]
    rw [hs, he]
    dsimp only
    rw [if_pos hge]
  · intro req dur s e hs he hlt hbd
    unfold plannerStep
    rw [if_neg (by simp [ne_empty_of_parse_some hs, ne_empty_of_parse_some he])]
    rw [hs, he]
    dsimp only
    rw [if_neg (not_le.mpr hlt), if_pos hbd]
  · intro req dur s e ρ hs he hρ hlt hsd hed
    unfold plannerStep
    rw [if_neg (by simp [ne_empty_of_parse_some hs, ne_empty_of_parse_some he])]
    rw [hs, he]
    dsimp only
    rw [if_neg (not_le.mpr hlt), if_neg (not_le.mpr hsd), if_pos hed, hρ]
  · have h : plannerStep ⟨"50", "150", "original"⟩ 100 =
        .planned ((50 : ℕ) : ℚ) 100 (100 - ((50 : ℕ) : ℚ)) none := rfl
    rw [h]; norm_num

/-- C8 witness: the start-after-end clause applied to the concrete
request start 60 / end 30 against duration 200. -/
theorem C8_witness :
    plannerStep ⟨"60", "30", "16:9"⟩ 200 = .errorEntry .startAfterEnd :=
  C8_planner_validation.1 ⟨"60", "30", "16:9"⟩ 200 60 30 (by decide) (by decide)
    (by norm_num)

/-- The truncation `pyTrunc` is the floor on nonnegative values. -/
theorem pyTrunc_eq_floor {q : ℚ} (h : 0 ≤ q) : pyTrunc q = ⌊q⌋ := if_pos h

/-- Evaluation of `calculate_crop_dimensions` in the wider-target branch
(`target_aspect > original_aspect`): full width, truncated height,
vertical centering, all rounded down to even. -/
theorem crop_wide (W H : ℤ) (tw th : ℚ) (hth : th ≠ 0) (hH : H ≠ 0)
    (htol : ¬ |tw / th - (W : ℚ) / (H : ℚ)| < 1 / 100)
    (hgt : (W : ℚ) / (H : ℚ) < tw / th) (hta : tw / th ≠ 0) :
    calculate_crop_dimensions W H (some (tw, th)) =
      .ok (some ⟨W - W % 2,
                 pyTrunc ((W : ℚ) / (tw / th)) - pyTrunc ((W : ℚ) / (tw / th)) % 2,
                 0,
                 (H - pyTrunc ((W : ℚ) / (tw / th))) / 2 -
                   (H - pyTrunc ((W : ℚ) / (tw / th))) / 2 % 2⟩) := by
  unfold calculate_crop_dimensions
  dsimp only
  rw [if_neg hth, if_neg hH, if_neg htol, if_pos hgt, if_neg hta]
  norm_num

/-- Evaluation of `calculate_crop_dimensions` in the narrower-target
branch (`target_aspect ≤ original_aspect`): full height, truncated width,
horizontal centering, all rounded down to even. -/
theorem crop_tall (W H : ℤ) (tw th : ℚ) (hth : th ≠ 0) (hH : H ≠ 0)
    (htol : ¬ |tw / th - (W : ℚ) / (H : ℚ)| < 1 / 100)
    (hgt : ¬ (W : ℚ) / (H : ℚ) < tw / th) :
    calculate_crop_dimensions W H (some (tw, th)) =
      .ok (some ⟨pyTrunc ((H : ℚ) * (tw / th)) - pyTrunc ((H : ℚ) * (tw / th)) % 2,
                 H - H % 2,
                 (W - pyTrunc ((H : ℚ) * (tw / th))) / 2 -
                   (W - pyTrunc ((H : ℚ) * (tw / th))) / 2 % 2,
                 0⟩) := by
  unfold calculate_crop_dimensions
  dsimp only
  rw [if_neg hth, if_neg hH, if_neg htol, if_neg hgt]
  norm_num

/-- C6: for positive source dimensions and a positive target ratio whose
aspect differs from the source aspect by at least the 0.01 tolerance,
`calculate_crop_dimensions` returns a geometry whose width, height, x
and y are even and nonnegative, with the crop box inside the source
bounds. -/
theorem C6_crop_invariants :
    ∀ (W H : ℤ) (tw th : ℚ), 0 < W → 0 < H → 0 < tw → 0 < th →
      1 / 100 ≤ |tw / th - (W : ℚ) / (H : ℚ)| →
      ∃ g : CropGeometry,
        calculate_crop_dimensions W H (some (tw, th)) = .ok (some g) ∧
        g.width % 2 = 0 ∧ g.height % 2 = 0 ∧ g.x % 2 = 0 ∧ g.y % 2 = 0 ∧
        0 ≤ g.width ∧ 0 ≤ g.height ∧ 0 ≤ g.x ∧ 0 ≤ g.y ∧
        g.x + g.width ≤ W ∧ g.y + g.height ≤ H := by
  intro W H tw th hW hH htw hth htol
  have hWq : (0 : ℚ) < (W : ℚ) := by exact_mod_cast hW
  have hHq : (0 : ℚ) < (H : ℚ) := by exact_mod_cast hH
  have hta : 0 < tw / th := div_pos htw hth
  have htol' : ¬ |tw / th - (W : ℚ) / (H : ℚ)| < 1 / 100 := not_lt.mpr htol
  by_cases hgt : (W : ℚ) / (H : ℚ) < tw / th
  · rw [crop_wide W H tw th (ne_of_gt hth) (ne_of_gt hH) htol' hgt (ne_of_gt hta)]
    set nh := pyTrunc ((W : ℚ) / (tw / th)) with hnh
    have h0 : 0 ≤ (W : ℚ) / (tw / th) := le_of_lt (div_pos hWq hta)
    have hfl : nh = ⌊(W : ℚ) / (tw / th)⌋ := pyTrunc_eq_floor h0
    have h1 : 0 ≤ nh := hfl ▸ Int.floor_nonneg.mpr h0
    have h2 : nh < H := by
      rw [hfl, Int.floor_lt]
      rw [div_lt_iff₀ hta]
      have := (div_lt_iff₀ hHq).mp hgt
      linarith [this]
    refine ⟨_, rfl, ?_, ?_, ?_, ?_, ?_, ?_, ?_, ?_, ?_, ?_⟩ <;> dsimp only <;> omega
  · rw [crop_tall W H tw th (ne_of_gt hth) (ne_of_gt hH) htol' hgt]
    set nw := pyTrunc ((H : ℚ) * (tw / th)) with hnw
    have h0 : 0 ≤ (H : ℚ) * (tw / th) := le_of_lt (mul_pos hHq hta)
    have hfl : nw = ⌊(H : ℚ) * (tw / th)⌋ := pyTrunc_eq_floor h0
    have h1 : 0 ≤ nw := hfl ▸ Int.floor_nonneg.mpr h0
    have h2 : nw ≤ W := by
      have hle : tw / th ≤ (W : ℚ) / (H : ℚ) := not_lt.mp hgt
      have hWv : (H : ℚ) * (tw / th) ≤ (W : ℚ) := by
        have := mul_le_mul_of_nonneg_left hle (le_of_lt hHq)
        calc (H : ℚ) * (tw / th) ≤ (H : ℚ) * ((W : ℚ) / (H : ℚ)) := this
        _ = (W : ℚ) := by field_simp
      calc nw = ⌊(H : ℚ) * (tw / th)⌋ := hfl
      _ ≤ ⌊(W : ℚ)⌋ := Int.floor_le_floor hWv
      _ = W := Int.floor_intCast W
    refine ⟨_, rfl, ?_, ?_, ?_, ?_, ?_, ?_, ?_, ?_, ?_, ?_⟩ <;> dsimp only <;> omega

/-- C6 witness: source 1920×1080 with target ratio 9:16 yields a valid
even in-bounds crop geometry. -/
theorem C6_witness :
    ∃ g : CropGeometry,
      calculate_crop_dimensions 1920 1080 (some (9, 16)) = .ok (some g) ∧
      g.width % 2 = 0 ∧ g.height % 2 = 0 ∧ g.x % 2 = 0 ∧ g.y % 2 = 0 ∧
      0 ≤ g.width ∧ 0 ≤ g.height ∧ 0 ≤ g.x ∧ 0 ≤ g.y ∧
      g.x + g.width ≤ 1920 ∧ g.y + g.height ≤ 1080 :=
  C6_crop_invariants 1920 1080 9 16 (by norm_num) (by norm_num) (by norm_num)
    (by norm_num) (le_abs.mpr (Or.inr (by norm_num)))

/-- C7: `calculate_crop_dimensions` returns `None` exactly when the ratio
is the `Original` sentinel or the target aspect is within 0.01 of the
source aspect (given the divisions are defined); in particular source
1920×1080 with target 16:9 gives `None`. -/
theorem C7_crop_none_iff :
    (∀ (W H : ℤ), calculate_crop_dimensions W H none = .ok none) ∧
    (∀ (W H : ℤ) (tw th : ℚ), th ≠ 0 → H ≠ 0 →
        (calculate_crop_dimensions W H (some (tw, th)) = .ok none ↔
          |tw / th - (W : ℚ) / (H : ℚ)| < 1 / 100)) ∧
    calculate_crop_dimensions 1920 1080 (some (16, 9)) = .ok none := by
  refine ⟨fun W H => rfl, ?_, by norm_num [calculate_crop_dimensions]⟩
  intro W H tw th hth hH
  constructor
  · intro h
    by_contra htol
    by_cases hgt : (W : ℚ) / (H : ℚ) < tw / th
    · by_cases hta : tw / th = 0
      · have herr : calculate_crop_dimensions W H (some (tw, th)) =
            .error .zeroDivisionError := by
          unfold calculate_crop_dimensions
          dsimp only
          rw [if_neg hth, if_neg hH, if_neg htol, if_pos hgt, if_pos hta]
        rw [herr] at h
        simp at h
      · rw [crop_wide W H tw th hth hH htol hgt hta] at h
        simp at h
    · rw [crop_tall W H tw th hth hH htol hgt] at h
      simp at h
  · intro htol
    unfold calculate_crop_dimensions
    dsimp only
    rw [if_neg hth, if_neg hH, if_pos htol]

/-- C7 witness: the no-crop clause applied to source 3840×2160 with
target ratio 16:9 (aspects equal, difference 0 < 0.01). -/
theorem C7_witness : calculate_crop_dimensions 3840 2160 (some (16, 9)) = .ok none :=
  (C7_crop_none_iff.2.1 3840 2160 16 9 (by norm_num) (by norm_num)).mpr (by norm_num)

/-- C10 counterexample: the claim says `originalHeight ≠ 0` and a nonzero
target height are the *only* preconditions for normal return.  But with
`W = 1, H = -1` and ratio `(0, 9)` — both stated preconditions hold — the
wider-target branch divides `original_width` by the zero target aspect
and raises `ZeroDivisionError`. -/
theorem C10_counterexample :
    (9 : ℚ) ≠ 0 ∧ (-1 : ℤ) ≠ 0 ∧
    calculate_crop_dimensions 1 (-1) (some (0, 9)) = .error .zeroDivisionError := by
  refine ⟨by norm_num, by norm_num, by norm_num [calculate_crop_dimensions]⟩

/-- C10 amended: with the additional precondition that the target aspect
is nonzero or the source aspect is nonnegative (always true for real
video dimensions), the function returns normally; a zero target-height
component or a zero source height reaches an unguarded division and
raises `ZeroDivisionError`. -/
theorem C10_crop_totality :
    (∀ (W H : ℤ) (tw th : ℚ), th ≠ 0 → H ≠ 0 →
        (tw ≠ 0 ∨ 0 ≤ (W : ℚ) / (H : ℚ)) →
        ∃ r, calculate_crop_dimensions W H (some (tw, th)) = .ok r) ∧
    (∀ (W H : ℤ) (tw : ℚ),
        calculate_crop_dimensions W H (some (tw, 0)) = .error .zeroDivisionError) ∧
    (∀ (W : ℤ) (tw th : ℚ), th ≠ 0 →
        calculate_crop_dimensions W 0 (some (tw, th)) = .error .zeroDivisionError) := by
  refine ⟨?_, ?_, ?_⟩
  · intro W H tw th hth hH hside
    by_cases htol : |tw / th - (W : ℚ) / (H : ℚ)| < 1 / 100
    · refine ⟨none, ?_⟩
      unfold calculate_crop_dimensions
      dsimp only
      rw [if_neg hth, if_neg hH, if_pos htol]
    · by_cases hgt : (W : ℚ) / (H : ℚ) < tw / th
      · have hta : tw / th ≠ 0 := by
          rcases hside with h | h
          · exact div_ne_zero h hth
          · intro hz
            rw [hz] at hgt
            exact absurd hgt (not_lt.mpr h)
        exact ⟨_, crop_wide W H tw th hth hH htol hgt hta⟩
      · exact ⟨_, crop_tall W H tw th hth hH htol hgt⟩
  · intro W H tw
    unfold calculate_crop_dimensions
    dsimp only
    rw [if_pos rfl]
  · intro W tw th hth
    unfold calculate_crop_dimensions
    dsimp only
    rw [if_neg hth, if_pos rfl]

/-- C10 witness: the totality clause applied to 1280×720 with target
ratio 1:1. -/
theorem C10_witness : ∃ r, calculate_crop_dimensions 1280 720 (some (1, 1)) = .ok r :=
  C10_crop_totality.1 1280 720 1 1 (by norm_num) (by norm_num) (Or.inl (by norm_num))

/-- C9: `process_segment` writes to the deterministic path
`video_part_{index:02d}.mp4` (two digits for every index the UI can
produce), returns success with that path exactly when the tool exits 0
and the output file exists, returns the stderr-carrying failure message
on a non-zero exit or missing output, maps a timeout to a failure of that
segment alone, and the processing loop always produces one outcome per
planned job. -/
theorem C9_extractor_contract :
    (∀ i : ℕ, i ≤ 99 → (pad2 i).length = 2) ∧
    (∀ (i : ℕ) (a : Option (ℚ × ℚ)) (p : Option (ℤ × ℤ)) (c : Option CropGeometry)
        (t : ToolResult),
        resolveCrop a p = .ok c → t.timedOut = false → t.returncode = 0 →
        t.outputExists = true →
        process_segment i a p t = (true, outputName i)) ∧
    (∀ (i : ℕ) (a : Option (ℚ × ℚ)) (p : Option (ℤ × ℤ)) (c : Option CropGeometry)
        (t : ToolResult),
        resolveCrop a p = .ok c → t.timedOut = false →
        (t.returncode ≠ 0 ∨ t.outputExists = false) →
        process_segment i a p t = (false, "FFmpeg error: " ++ t.toolStderr)) ∧
    (∀ (i : ℕ) (a : Option (ℚ × ℚ)) (p : Option (ℤ × ℤ)) (c : Option CropGeometry)
        (t : ToolResult),
        resolveCrop a p = .ok c → t.timedOut = true →
        process_segment i a p t = (false, "Exception: timeout")) ∧
    (∀ (start : ℕ) (jobs : List Job), (processAll start jobs).length = jobs.length) := by
  refine ⟨by decide, ?_, ?_, ?_, ?_⟩
  · intro i a p c t hc ht hr he
    simp [process_segment, hc, runTranscode, ht, hr, he]
  · intro i a p c t hc ht hfail
    have hcond : ¬ (t.returncode = 0 ∧ t.outputExists = true) := by
      rcases hfail with h | h
      · exact fun hand => h hand.1
      · intro hand
        rw [hand.2] at h
        exact Bool.noConfusion h
    simp [process_segment, hc, runTranscode, ht, hcond]
  · intro i a p c t hc ht
    simp [process_segment, hc, runTranscode, ht]
  · intro start jobs
    induction jobs generalizing start with
    | nil => rfl
    | cons j rest ih => simp [processAll, ih]

/-- C9 witness: a non-zero exit with existing output at index 3 gives the
failure carrying the tool's stderr. -/
theorem C9_witness :
    process_segment 3 none none ⟨false, 1, true, "boom"⟩ = (false, "FFmpeg error: boom") :=
  C9_extractor_contract.2.2.1 3 none none none ⟨false, 1, true, "boom"⟩ rfl rfl
    (Or.inl (by decide))

/-- C3 counterexample: `create_zip_file` takes no success list — it packs
every `.mp4` in the session output directory.  After a first run with two
successful segments and a second run with one, the archive built for the
second run's single success also contains `video_part_02.mp4` left over
from the first run, which is not among the given successes. -/
theorem C3_counterexample :
    "video_part_02.mp4" ∈ create_zip_file (sessionDir [[true, true], [true]]) ∧
    "video_part_02.mp4" ∉ runFiles 1 [true] := by
  refine ⟨by decide, by decide⟩

/-- C3 amended: the archive's member set is exactly the `.mp4` files
present in the session output directory — which equals the base
filenames of the given successes only when the directory holds exactly
the current run's outputs (e.g. the first run of a session); outputs of
earlier runs in the same session are included as extras. -/
theorem C3_zip_membership :
    (∀ (dir : List String) (f : String),
        f ∈ create_zip_file dir ↔ f ∈ dir ∧ ".mp4".data.isSuffixOf f.data = true) ∧
    create_zip_file (sessionDir [[true, false, true]]) = runFiles 1 [true, false, true] ∧
    ("video_part_02.mp4" ∈ create_zip_file (sessionDir [[true, true], [true]]) ∧
      "video_part_02.mp4" ∉ runFiles 1 [true]) := by
  refine ⟨?_, by decide, by decide, by decide⟩
  intro dir f
  simp [create_zip_file, List.mem_filter]

/-- C3 witness: the membership characterization applied to a concrete
directory. -/
theorem C3_zip_membership_witness :
    "clip.mp4" ∈ create_zip_file ["clip.mp4", "notes.txt"] :=
  (C3_zip_membership.1 ["clip.mp4", "notes.txt"] "clip.mp4").mpr (by decide)

end VideoSplitter
